import Mathlib

/-!
Shallow embedding of the authentication/session subsystem of the
micro-survey dashboard backend.

Sources embedded:
  - backend/src/modules/auth/tokens.utils.js (refresh-token ledger)
  - backend/src/modules/auth/auth.service.js (session service)
  - backend/src/modules/auth/password.utils.js (bcrypt wrapper)
  - backend/src/utils/ApiError.js (error type)
  - backend/src/migrations/002_create_refresh_tokens.sql and
    017_enhance_auth_security.sql (persisted record shapes)

Modelling conventions:
  - Time instants are natural numbers (milliseconds); `NOW()` and
    `Date.now()` become an explicit `now : Nat` argument.
  - Randomness (crypto.randomBytes, uuidv4) becomes explicit arguments:
    each operation receives the fresh token / id values it would generate.
  - SHA-256 (crypto.createHash) is modelled as an injective tagging
    function on strings: the development relies only on determinism and
    collision-freedom of the hash.
  - bcrypt hash/compare are modelled as a deterministic injective function
    together with the equation compare p h = (hash p == h), which captures
    the bcrypt contract that compare succeeds exactly on the hashed input.
  - SQL SELECT ... WHERE returning `rows[0]` becomes `List.find?`;
    UPDATE ... WHERE becomes `List.map` with a guarded record update;
    INSERT becomes list append.  A db.transaction is a single state
    transition (one function from state to state).
  - Thrown JS exceptions become `Except` results; every service operation
    returns the (possibly unchanged) database state together with its
    outcome, mirroring the fact that the JS code performs no writes after
    the point where it throws.
-/

namespace MicroSurvey

/-- Char.toLowerCase for the ASCII range: JS String.prototype.toLowerCase
restricted to the character data appearing in this development. -/
def lowerChar (c : Char) : Char :=
  if 65 ≤ c.toNat ∧ c.toNat ≤ 90 then Char.ofNat (c.toNat + 32) else c

/-- JS String.prototype.toLowerCase (ASCII fragment), defined by structural
recursion over the character data so that it evaluates by kernel reduction. -/
def toLowerCase (s : String) : String :=
  String.mk (s.data.map lowerChar)

/-- crypto.createHash sha256 hex digest, modelled as an injective tag
on the input string (tokens.utils.js hashToken). -/
def hashToken (token : String) : String :=
  "sha256:" ++ token

/-- bcrypt.hash from password.utils.js, modelled as a deterministic
injective tag (the salt/cost detail is irrelevant to the claims). -/
def hashPassword (password : String) : String :=
  "bcrypt:" ++ password

/-- bcrypt.compare from password.utils.js: succeeds exactly when the
candidate password hashes to the stored hash. -/
def comparePassword (password hash : String) : Bool :=
  hashPassword password == hash

/-- jwt.sign of the access-token payload (jwt.utils.js), modelled as an
opaque deterministic function of the payload fields. -/
def generateAccessToken (userId email role : String) : String :=
  "jwt." ++ userId ++ "." ++ email ++ "." ++ role

/-- One day in milliseconds. -/
def dayMillis : Nat := 86400000

/-- tokens.utils.js getRefreshTokenExpiry: now plus `days` days
(REFRESH_TOKEN_EXPIRES_DAYS defaults to 30). -/
def getRefreshTokenExpiry (now days : Nat) : Nat :=
  now + days * dayMillis

/-- users table row (002/017 migrations, columns used by auth.service.js). -/
structure User where
  id : String
  email : String
  password_hash : String
  full_name : String
  role : String
  is_active : Bool
  last_login_at : Option Nat
  deriving Repr, DecidableEq

/-- organizations table row (003 migration, columns used by signup). -/
structure Organization where
  id : String
  name : String
  slug : String
  owner_id : String
  deriving Repr, DecidableEq

/-- refresh_tokens table row: 002_create_refresh_tokens.sql base columns
(id, token, user_id, expires_at, created_at) plus the
017_enhance_auth_security.sql columns (token_hash, created_by_ip,
revoked_at, revoked_by_ip, replaced_by_token). -/
structure RefreshTokenRecord where
  id : String
  token : String
  token_hash : String
  user_id : String
  expires_at : Nat
  created_at : Nat
  created_by_ip : String
  revoked_at : Option Nat
  revoked_by_ip : Option String
  replaced_by_token : Option String
  deriving Repr, DecidableEq

/-- password_reset_tokens table row (017_enhance_auth_security.sql). -/
structure PasswordResetRecord where
  id : String
  user_id : String
  token_hash : String
  expires_at : Nat
  used_at : Option Nat
  created_at : Nat
  created_by_ip : String
  deriving Repr, DecidableEq

/-- The relational store: the tables touched by the auth subsystem. -/
structure DB where
  users : List User
  organizations : List Organization
  refresh_tokens : List RefreshTokenRecord
  password_reset_tokens : List PasswordResetRecord
  deriving Repr, DecidableEq

/-- utils/ApiError.js: an Error subclass carrying a status code; the
`name` field is always the string ApiError. -/
structure ApiError where
  name : String
  message : String
  statusCode : Nat
  deriving Repr, DecidableEq

def ApiError.badRequest (message : String) : ApiError :=
  { name := "ApiError", message := message, statusCode := 400 }

def ApiError.unauthorized (message : String) : ApiError :=
  { name := "ApiError", message := message, statusCode := 401 }

def ApiError.forbidden (message : String) : ApiError :=
  { name := "ApiError", message := message, statusCode := 403 }

def ApiError.notFound (message : String) : ApiError :=
  { name := "ApiError", message := message, statusCode := 404 }

def ApiError.conflict (message : String) : ApiError :=
  { name := "ApiError", message := message, statusCode := 409 }

/-- An exception escaping a service operation: either a typed ApiError or
a plain `new Error(message)` (as thrown by rotateRefreshToken). -/
inductive ServiceError where
  | api (e : ApiError)
  | generic (message : String)
  deriving Repr, DecidableEq

/-- An out-of-band email delivery triggered by the service
(email.utils.js sendWelcome / sendPasswordReset). -/
inductive EmailEvent where
  | welcome (toEmail name : String)
  | passwordReset (toEmail name resetToken : String)
  deriving Repr, DecidableEq

deriving instance DecidableEq for Except

/-- Return value of storeRefreshToken. -/
structure StoredToken where
  id : String
  token : String
  deriving Repr, DecidableEq

/-- The user projection returned by signup/login. -/
structure AuthUser where
  id : String
  email : String
  fullName : String
  role : String
  deriving Repr, DecidableEq

/-- Return value of signup/login. -/
structure AuthResult where
  user : AuthUser
  accessToken : String
  refreshToken : String
  deriving Repr, DecidableEq

/-- Return value of refreshAccessToken. -/
structure RefreshResult where
  accessToken : String
  refreshToken : String
  deriving Repr, DecidableEq

/-- Return value of requestPasswordReset / resetPassword. -/
structure MessageResult where
  message : String
  deriving Repr, DecidableEq

/-- tokens.utils.js storeRefreshToken: INSERT INTO refresh_tokens
(id, token, token_hash, user_id, expires_at, created_at, created_by_ip)
VALUES (tokenId, token, hashToken token, userId, expiry, NOW(), ip).
Note that the plaintext `token` is written to the `token` column exactly
as in the source. -/
def storeRefreshToken (db : DB) (userId token ip tokenId : String) (now : Nat) :
    DB × StoredToken :=
  let tokenHash := hashToken token
  let expiresAt := getRefreshTokenExpiry now 30
  let record : RefreshTokenRecord :=
    { id := tokenId, token := token, token_hash := tokenHash, user_id := userId,
      expires_at := expiresAt, created_at := now, created_by_ip := ip,
      revoked_at := none, revoked_by_ip := none, replaced_by_token := none }
  ({ db with refresh_tokens := db.refresh_tokens ++ [record] },
   { id := tokenId, token := token })

/-- tokens.utils.js verifyRefreshToken: SELECT by token_hash, null when
absent, revoked (revoked_at set) or expired (expires_at strictly before
now — the source compares with `<`). -/
def verifyRefreshToken (db : DB) (token : String) (now : Nat) :
    Option RefreshTokenRecord :=
  match db.refresh_tokens.find? (fun r => r.token_hash == hashToken token) with
  | none => none
  | some tokenData =>
    if tokenData.revoked_at.isSome then none
    else if tokenData.expires_at < now then none
    else some tokenData

/-- tokens.utils.js rotateRefreshToken: verify the old token (throwing a
plain Error on failure), then in one transaction revoke the old record
(setting revoked_at, revoked_by_ip, replaced_by_token) and insert the new
record; returns the new plaintext token. -/
def rotateRefreshToken (db : DB) (oldToken userId ip newToken newTokenId : String)
    (now : Nat) : DB × Except String String :=
  match verifyRefreshToken db oldToken now with
  | none => (db, Except.error "Invalid or expired refresh token")
  | some oldTokenData =>
    let newTokenHash := hashToken newToken
    let expiresAt := getRefreshTokenExpiry now 30
    let revoked := db.refresh_tokens.map (fun r =>
      if r.id == oldTokenData.id then
        { r with revoked_at := some now, revoked_by_ip := some ip,
                 replaced_by_token := some newTokenId }
      else r)
    let newRecord : RefreshTokenRecord :=
      { id := newTokenId, token := newToken, token_hash := newTokenHash,
        user_id := userId, expires_at := expiresAt, created_at := now,
        created_by_ip := ip, revoked_at := none, revoked_by_ip := none,
        replaced_by_token := none }
    ({ db with refresh_tokens := revoked ++ [newRecord] }, Except.ok newToken)

/-- tokens.utils.js revokeAllUserTokens: UPDATE refresh_tokens SET
revoked_at = NOW() WHERE user_id = userId AND revoked_at IS NULL,
returning the number of rows touched. -/
def revokeAllUserTokens (db : DB) (userId : String) (now : Nat) : DB × Nat :=
  let liveCount :=
    (db.refresh_tokens.filter (fun r => r.user_id == userId && r.revoked_at.isNone)).length
  let updated := db.refresh_tokens.map (fun r =>
    if r.user_id == userId && r.revoked_at.isNone then
      { r with revoked_at := some now }
    else r)
  ({ db with refresh_tokens := updated }, liveCount)

/-- Character sanitisation used for the organization slug in signup:
characters outside [a-z0-9-] are replaced by a dash. -/
def slugChar (c : Char) : Char :=
  if (97 ≤ c.toNat ∧ c.toNat ≤ 122) ∨ (48 ≤ c.toNat ∧ c.toNat ≤ 57) ∨ c = '-' then c
  else '-'

/-- The organization slug from signup:
fullName.toLowerCase().replace(non-slug chars, dash) + dash + Date.now(). -/
def orgSlug (fullName : String) (now : Nat) : String :=
  String.mk ((toLowerCase fullName).data.map slugChar) ++ "-" ++ toString now

/-- auth.service.js signup: conflict when a user row with the lowercased
email exists; otherwise, in one transaction, insert the user (email
lowercased, role user, is_active true) and a default organization; then
issue an access token, store a fresh refresh token, and fire a
best-effort welcome email. -/
def signup (db : DB) (email password fullName ip userId orgId refreshTok tokenId : String)
    (now : Nat) : DB × List EmailEvent × Except ServiceError AuthResult :=
  if (db.users.find? (fun u => u.email == toLowerCase email)).isSome then
    (db, [], Except.error (ServiceError.api (ApiError.conflict "Email already registered")))
  else
    let passwordHash := hashPassword password
    let user : User :=
      { id := userId, email := toLowerCase email, password_hash := passwordHash,
        full_name := fullName, role := "user", is_active := true, last_login_at := none }
    let org : Organization :=
      { id := orgId, name := fullName ++ "\x27s Organization",
        slug := orgSlug fullName now, owner_id := userId }
    let db1 : DB := { db with users := db.users ++ [user],
                              organizations := db.organizations ++ [org] }
    let db2 := (storeRefreshToken db1 userId refreshTok ip tokenId now).fst
    (db2, [EmailEvent.welcome user.email user.full_name],
     Except.ok
       { user := { id := userId, email := user.email, fullName := fullName, role := user.role },
         accessToken := generateAccessToken userId user.email user.role,
         refreshToken := refreshTok })

/-- auth.service.js login: look the user up by lowercased email; identical
UnauthorizedError for an unknown email and for a wrong password; a
ForbiddenError for a deactivated account (checked before the password);
on success update last_login_at, store a fresh refresh token and return
the token pair. -/
def login (db : DB) (email password ip refreshTok tokenId : String) (now : Nat) :
    DB × Except ServiceError AuthResult :=
  match db.users.find? (fun u => u.email == toLowerCase email) with
  | none =>
    (db, Except.error (ServiceError.api (ApiError.unauthorized "Invalid email or password")))
  | some user =>
    if !user.is_active then
      (db, Except.error (ServiceError.api (ApiError.forbidden "Account is disabled")))
    else if !(comparePassword password user.password_hash) then
      (db, Except.error (ServiceError.api (ApiError.unauthorized "Invalid email or password")))
    else
      let db1 : DB := { db with users := db.users.map (fun u =>
        if u.id == user.id then { u with last_login_at := some now } else u) }
      let db2 := (storeRefreshToken db1 user.id refreshTok ip tokenId now).fst
      (db2, Except.ok
        { user := { id := user.id, email := user.email, fullName := user.full_name,
                    role := user.role },
          accessToken := generateAccessToken user.id user.email user.role,
          refreshToken := refreshTok })

/-- auth.service.js refreshAccessToken: missing token, failed verify,
missing user and inactive user all yield an UnauthorizedError; otherwise
rotate the refresh token and issue a new access token.  The plain Error
a failing rotation would throw is propagated as a generic error. -/
def refreshAccessToken (db : DB) (refreshToken ip newToken newTokenId : String)
    (now : Nat) : DB × Except ServiceError RefreshResult :=
  if refreshToken == "" then
    (db, Except.error (ServiceError.api (ApiError.unauthorized "Refresh token required")))
  else
    match verifyRefreshToken db refreshToken now with
    | none =>
      (db, Except.error (ServiceError.api
        (ApiError.unauthorized "Invalid or expired refresh token")))
    | some tokenData =>
      match db.users.find? (fun u => u.id == tokenData.user_id) with
      | none =>
        (db, Except.error (ServiceError.api
          (ApiError.unauthorized "User not found or inactive")))
      | some user =>
        if !user.is_active then
          (db, Except.error (ServiceError.api
            (ApiError.unauthorized "User not found or inactive")))
        else
          match rotateRefreshToken db refreshToken user.id ip newToken newTokenId now with
          | (db1, Except.error msg) => (db1, Except.error (ServiceError.generic msg))
          | (db1, Except.ok newRefreshToken) =>
            (db1, Except.ok
              { accessToken := generateAccessToken user.id user.email user.role,
                refreshToken := newRefreshToken })

/-- auth.service.js requestPasswordReset: look up an active user by
lowercased email; when absent return the generic message with no writes
and no email; when present insert a reset record whose hash has a 6-hour
expiry and trigger the reset email, returning the same generic message. -/
def requestPasswordReset (db : DB) (email ip resetToken resetId : String) (now : Nat) :
    DB × List EmailEvent × MessageResult :=
  match db.users.find? (fun u => u.email == toLowerCase email && u.is_active) with
  | none =>
    (db, [], { message := "If email exists, reset link will be sent" })
  | some user =>
    let tokenHash := hashToken resetToken
    let expiresAt := now + 6 * 60 * 60 * 1000
    let record : PasswordResetRecord :=
      { id := resetId, user_id := user.id, token_hash := tokenHash,
        expires_at := expiresAt, used_at := none, created_at := now,
        created_by_ip := ip }
    ({ db with password_reset_tokens := db.password_reset_tokens ++ [record] },
     [EmailEvent.passwordReset user.email user.full_name resetToken],
     { message := "If email exists, reset link will be sent" })

/-- auth.service.js resetPassword: look the reset record up by hash
(bad request when absent, already used when used_at is set, expired when
expires_at is strictly before now); then, in one transaction, write the
new password hash and set used_at; finally revoke all refresh tokens of
the user. -/
def resetPassword (db : DB) (token newPassword ip : String) (now : Nat) :
    DB × Except ServiceError MessageResult :=
  match db.password_reset_tokens.find? (fun r => r.token_hash == hashToken token) with
  | none =>
    (db, Except.error (ServiceError.api (ApiError.badRequest "Invalid or expired reset token")))
  | some resetData =>
    if resetData.used_at.isSome then
      (db, Except.error (ServiceError.api (ApiError.badRequest "Reset token already used")))
    else if resetData.expires_at < now then
      (db, Except.error (ServiceError.api (ApiError.badRequest "Reset token expired")))
    else
      let passwordHash := hashPassword newPassword
      let db1 : DB := { db with
        users := db.users.map (fun u =>
          if u.id == resetData.user_id then { u with password_hash := passwordHash } else u),
        password_reset_tokens := db.password_reset_tokens.map (fun r =>
          if r.id == resetData.id then { r with used_at := some now } else r) }
      let db2 := (revokeAllUserTokens db1 resetData.user_id now).fst
      (db2, Except.ok { message := "Password reset successful" })

/-! ## Generic lemmas about the embedding -/

/-- A map by a function that does not change the truth of the search
predicate commutes with find?. -/
theorem find?_map_invariant {α : Type} (g : α → α) (p : α → Bool)
    (hg : ∀ r, p (g r) = p r) (l : List α) :
    (l.map g).find? p = (l.find? p).map g := by
  rw [List.find?_map]
  have hpg : (p ∘ g) = p := funext hg
  rw [hpg]

/-- Inversion of a successful verifyRefreshToken: the record was found by
hash, is unrevoked, and is not past expiry. -/
theorem verifyRefreshToken_inv {db : DB} {t : String} {now : Nat}
    {rd : RefreshTokenRecord}
    (h : verifyRefreshToken db t now = some rd) :
    db.refresh_tokens.find? (fun r => r.token_hash == hashToken t) = some rd ∧
    rd.revoked_at = none ∧ ¬ rd.expires_at < now := by
  unfold verifyRefreshToken at h
  rcases hf : db.refresh_tokens.find? (fun r => r.token_hash == hashToken t) with _ | td
  · rw [hf] at h
    cases h
  · rw [hf] at h
    by_cases h1 : td.revoked_at.isSome
    · simp [h1] at h
    · by_cases h2 : td.expires_at < now
      · simp [h1, h2] at h
      · simp [h1, h2] at h
        subst h
        exact ⟨hf, Option.not_isSome_iff_eq_none.mp h1, h2⟩

/-- The record update performed by rotateRefreshToken leaves token_hash
unchanged. -/
theorem rotate_update_token_hash (x : String) (now : Nat) (ip ntid : String)
    (r : RefreshTokenRecord) :
    (if r.id == x then
      { r with revoked_at := some now, revoked_by_ip := some ip,
               replaced_by_token := some ntid }
     else r).token_hash = r.token_hash := by
  by_cases hc : (r.id == x) = true <;> simp [hc]

/-- The record update performed by revokeAllUserTokens leaves token_hash
unchanged. -/
theorem revokeAll_update_token_hash (userId : String) (now : Nat)
    (r : RefreshTokenRecord) :
    (if r.user_id == userId && r.revoked_at.isNone then
      { r with revoked_at := some now }
     else r).token_hash = r.token_hash := by
  by_cases hc : (r.user_id == userId && r.revoked_at.isNone) = true <;> simp [hc]

/-- The record update performed by resetPassword on the reset ledger
leaves token_hash unchanged. -/
theorem resetUsed_update_token_hash (x : String) (now : Nat)
    (r : PasswordResetRecord) :
    (if r.id == x then { r with used_at := some now } else r).token_hash =
      r.token_hash := by
  by_cases hc : (r.id == x) = true <;> simp [hc]

/-! ## Concrete fixtures used by counterexamples and witnesses -/

/-- The empty database. -/
def emptyDB : DB :=
  { users := [], organizations := [], refresh_tokens := [], password_reset_tokens := [] }

/-- A fixture user. -/
def wUser : User :=
  { id := "u1", email := "a@x.com", password_hash := hashPassword "Abcdefg1",
    full_name := "A B", role := "user", is_active := true, last_login_at := none }

/-- The same fixture user, deactivated. -/
def wUserDisabled : User :=
  { wUser with is_active := false }

/-- A refresh-token record that expires exactly at instant 100. -/
def wBoundaryRefresh : RefreshTokenRecord :=
  { id := "rt1", token := "tok1", token_hash := hashToken "tok1", user_id := "u1",
    expires_at := 100, created_at := 0, created_by_ip := "ip",
    revoked_at := none, revoked_by_ip := none, replaced_by_token := none }

/-- A password-reset record created at 0 with the 6-hour expiry
21600000 ms. -/
def wBoundaryReset : PasswordResetRecord :=
  { id := "pr1", user_id := "u1", token_hash := hashToken "reset1",
    expires_at := 21600000, used_at := none, created_at := 0, created_by_ip := "ip" }

/-- Fixture database holding the active fixture user. -/
def wDB : DB :=
  { users := [wUser], organizations := [], refresh_tokens := [],
    password_reset_tokens := [] }

/-- Fixture database holding the deactivated fixture user. -/
def wDBDisabled : DB :=
  { users := [wUserDisabled], organizations := [], refresh_tokens := [],
    password_reset_tokens := [] }

/-- Fixture database holding the boundary records. -/
def wBoundaryDB : DB :=
  { users := [wUser], organizations := [], refresh_tokens := [wBoundaryRefresh],
    password_reset_tokens := [wBoundaryReset] }

/-! ## Claims -/

/-- C1: the spec claims the stored refresh-token record contains only a
one-way hash and that the plaintext token value is never written to
persistent storage.  The code violates this: both storeRefreshToken and
rotateRefreshToken INSERT the plaintext into the `token` column of
refresh_tokens (which 002_create_refresh_tokens.sql declares TEXT UNIQUE
NOT NULL).  This theorem evaluates both writes at a failing input: the
plaintext values secret-token and next-secret both end up verbatim in the
token column. -/
theorem C1_plaintext_token_persisted :
    ((storeRefreshToken emptyDB "user-1" "secret-token" "1.2.3.4" "rt-1" 0).fst.refresh_tokens.map
      RefreshTokenRecord.token) = ["secret-token"] ∧
    ((rotateRefreshToken
        (storeRefreshToken emptyDB "user-1" "secret-token" "1.2.3.4" "rt-1" 0).fst
        "secret-token" "user-1" "5.6.7.8" "next-secret" "rt-2" 5).fst.refresh_tokens.map
      RefreshTokenRecord.token) = ["secret-token", "next-secret"] := by
  decide

/-- C3 counterexample: the claim says a refresh token presented exactly at
expires_at is treated as expired and a reset token presented exactly at
its 6-hour expiry instant fails.  At the boundary instant the code
accepts both: verifyRefreshToken compares with a strict less-than, and so
does resetPassword. -/
theorem C3_counterexample_boundary_accepted :
    verifyRefreshToken wBoundaryDB "tok1" 100 = some wBoundaryRefresh ∧
    (resetPassword wBoundaryDB "reset1" "NewPass123" "ip" 21600000).snd =
      Except.ok { message := "Password reset successful" } := by
  decide

/-- C3 (amended): the expiry comparisons in verifyRefreshToken and
resetPassword are strict (exclusive): a refresh token whose expires_at
equals the current time still verifies, and a password-reset token
presented exactly at its expiry instant is still consumed successfully;
only instants strictly after expires_at are rejected as expired. -/
theorem C3_expiry_comparison_exclusive
    (db db2 : DB) (t rt newPassword ip : String) (now now2 : Nat)
    (rd : RefreshTokenRecord) (prd : PasswordResetRecord)
    (hfind : db.refresh_tokens.find? (fun r => r.token_hash == hashToken t) = some rd)
    (hrev : rd.revoked_at = none) (hexp : rd.expires_at = now)
    (hfind2 : db2.password_reset_tokens.find? (fun r => r.token_hash == hashToken rt) = some prd)
    (hused : prd.used_at = none) (hexp2 : prd.expires_at = now2) :
    verifyRefreshToken db t now = some rd ∧
    (resetPassword db2 rt newPassword ip now2).snd =
      Except.ok { message := "Password reset successful" } := by
  constructor
  · unfold verifyRefreshToken
    rw [hfind]
    simp [hrev, hexp]
  · unfold resetPassword
    rw [hfind2]
    simp [hused, hexp2]

/-- Witness for C3_expiry_comparison_exclusive at the boundary fixtures. -/
theorem C3_expiry_comparison_exclusive_witness :
    verifyRefreshToken wBoundaryDB "tok1" 100 = some wBoundaryRefresh ∧
    (resetPassword wBoundaryDB "reset1" "NewPass123" "ip" 21600000).snd =
      Except.ok { message := "Password reset successful" } :=
  C3_expiry_comparison_exclusive wBoundaryDB wBoundaryDB "tok1" "reset1"
    "NewPass123" "ip" 100 21600000 wBoundaryRefresh wBoundaryReset
    (by decide) (by decide) (by decide) (by decide) (by decide) (by decide)

/-- C6: login with a registered active email and a wrong password and
login with a non-existent email produce identical failures: the same
ApiError with name ApiError, message Invalid email or password and
status code 401, so the two responses do not reveal whether the account
exists. -/
theorem C6_login_uniform_unauthorized
    (db : DB) (e1 p1 e2 p2 ip1 ip2 rt1 tid1 rt2 tid2 : String) (now1 now2 : Nat)
    (u : User)
    (hfind : db.users.find? (fun x => x.email == toLowerCase e1) = some u)
    (hactive : u.is_active = true)
    (hwrong : comparePassword p1 u.password_hash = false)
    (hnone : db.users.find? (fun x => x.email == toLowerCase e2) = none) :
    login db e1 p1 ip1 rt1 tid1 now1 =
      (db, Except.error (ServiceError.api (ApiError.unauthorized "Invalid email or password"))) ∧
    login db e2 p2 ip2 rt2 tid2 now2 =
      (db, Except.error (ServiceError.api (ApiError.unauthorized "Invalid email or password"))) := by
  constructor
  · unfold login
    rw [hfind]
    simp [hactive, hwrong]
  · unfold login
    rw [hnone]

/-- Witness for C6 on a concrete store: wrong password for the registered
a@x.com versus the unknown b@x.com. -/
theorem C6_login_uniform_unauthorized_witness :
    login wDB "a@x.com" "WrongPass1" "ip1" "t1" "i1" 3 =
      (wDB, Except.error (ServiceError.api (ApiError.unauthorized "Invalid email or password"))) ∧
    login wDB "b@x.com" "Abcdefg1" "ip2" "t2" "i2" 4 =
      (wDB, Except.error (ServiceError.api (ApiError.unauthorized "Invalid email or password"))) :=
  C6_login_uniform_unauthorized wDB "a@x.com" "WrongPass1" "b@x.com" "Abcdefg1"
    "ip1" "ip2" "t1" "i1" "t2" "i2" 3 4 wUser
    (by decide) (by decide) (by decide) (by decide)

/-- C7: requestPasswordReset returns the same generic message for every
input state and email, whether or not a matching user exists; the
returned value is a constant and so carries no information about account
existence. -/
theorem C7_reset_request_generic_message
    (db : DB) (email ip resetToken resetId : String) (now : Nat) :
    (requestPasswordReset db email ip resetToken resetId now).snd.snd =
      { message := "If email exists, reset link will be sent" } := by
  unfold requestPasswordReset
  cases hfind : db.users.find? (fun u => u.email == toLowerCase email && u.is_active) <;>
    simp [hfind]

/-- C9: when the account looked up by email is deactivated, login fails
with ForbiddenError Account is disabled for every supplied password (the
active check precedes password verification), and that failure differs
from the uniform unauthorized failure, so a deactivated account is
distinguishable from a non-existent one. -/
theorem C9_disabled_account_forbidden
    (db : DB) (email ip rt tid : String) (now : Nat) (u : User)
    (hfind : db.users.find? (fun x => x.email == toLowerCase email) = some u)
    (hinactive : u.is_active = false) :
    (∀ password, login db email password ip rt tid now =
      (db, Except.error (ServiceError.api (ApiError.forbidden "Account is disabled")))) ∧
    ApiError.forbidden "Account is disabled" ≠
      ApiError.unauthorized "Invalid email or password" := by
  constructor
  · intro password
    unfold login
    rw [hfind]
    simp [hinactive]
  · decide

/-- Witness for C9: the deactivated fixture account rejects both the
correct and a wrong password with the same ForbiddenError. -/
theorem C9_disabled_account_forbidden_witness :
    (∀ password, login wDBDisabled "a@x.com" password "ip" "t" "i" 9 =
      (wDBDisabled,
       Except.error (ServiceError.api (ApiError.forbidden "Account is disabled")))) ∧
    ApiError.forbidden "Account is disabled" ≠
      ApiError.unauthorized "Invalid email or password" :=
  C9_disabled_account_forbidden wDBDisabled "a@x.com" "ip" "t" "i" 9 wUserDisabled
    (by decide) (by decide)

/-- C10: when every user holding the given email is deactivated,
requestPasswordReset behaves exactly as for a non-existent email: the
database is returned unchanged (in particular no reset record is
inserted), no email event is produced, and the generic message is
returned. -/
theorem C10_deactivated_reset_request_noop
    (db : DB) (email ip resetToken resetId : String) (now : Nat)
    (hinactive : ∀ u ∈ db.users, u.email = toLowerCase email → u.is_active = false) :
    requestPasswordReset db email ip resetToken resetId now =
      (db, [], { message := "If email exists, reset link will be sent" }) := by
  have hfind : db.users.find? (fun u => u.email == toLowerCase email && u.is_active) = none := by
    rw [List.find?_eq_none]
    intro u hu
    by_cases he : u.email = toLowerCase email
    · simp [he, hinactive u hu he]
    · simp [he]
  unfold requestPasswordReset
  rw [hfind]

/-- Witness for C10 on the deactivated fixture account. -/
theorem C10_deactivated_reset_request_noop_witness :
    requestPasswordReset wDBDisabled "a@x.com" "ip" "reset9" "pr9" 77 =
      (wDBDisabled, [], { message := "If email exists, reset link will be sent" }) :=
  C10_deactivated_reset_request_noop wDBDisabled "a@x.com" "ip" "reset9" "pr9" 77
    (by decide)

/-- After a successful verification, rotation produces exactly: the old
ledger with the matched record revoked (revoked_at, revoked_by_ip and the
successor reference set), plus the fresh record appended; and it returns
the new plaintext token. -/
theorem rotateRefreshToken_eq (db : DB) (t userId ip newToken newTokenId : String)
    (now : Nat) (rd : RefreshTokenRecord)
    (hverify : verifyRefreshToken db t now = some rd) :
    rotateRefreshToken db t userId ip newToken newTokenId now =
      ({ db with refresh_tokens :=
        db.refresh_tokens.map (fun r =>
          if r.id == rd.id then
            { r with revoked_at := some now, revoked_by_ip := some ip,
                     replaced_by_token := some newTokenId }
          else r) ++
        [{ id := newTokenId, token := newToken, token_hash := hashToken newToken,
           user_id := userId, expires_at := getRefreshTokenExpiry now 30,
           created_at := now, created_by_ip := ip, revoked_at := none,
           revoked_by_ip := none, replaced_by_token := none }] },
       Except.ok newToken) := by
  unfold rotateRefreshToken
  rw [hverify]

/-- C2: for a live refresh token t (verifying to a record), after a
successful rotation: the rotation returns the fresh token, t never
verifies again (at any later instant), the fresh token verifies
successfully, and a second refresh call presenting t fails with the
UnauthorizedError Invalid or expired refresh token while leaving the
state unchanged. -/
theorem C2_rotation_replay_protection
    (db : DB) (t userId ip newToken newTokenId ip2 nt2 ntid2 : String)
    (now now2 : Nat) (rd : RefreshTokenRecord)
    (hverify : verifyRefreshToken db t now = some rd)
    (hfresh : ∀ r ∈ db.refresh_tokens, r.token_hash ≠ hashToken newToken)
    (hne : t ≠ "") :
    (rotateRefreshToken db t userId ip newToken newTokenId now).snd = Except.ok newToken ∧
    verifyRefreshToken (rotateRefreshToken db t userId ip newToken newTokenId now).fst t now2 = none ∧
    (verifyRefreshToken (rotateRefreshToken db t userId ip newToken newTokenId now).fst newToken now).isSome = true ∧
    refreshAccessToken (rotateRefreshToken db t userId ip newToken newTokenId now).fst t ip2 nt2 ntid2 now2 =
      ((rotateRefreshToken db t userId ip newToken newTokenId now).fst,
       Except.error (ServiceError.api (ApiError.unauthorized "Invalid or expired refresh token"))) := by
  obtain ⟨hfind, hrev, hexp⟩ := verifyRefreshToken_inv hverify
  rw [rotateRefreshToken_eq db t userId ip newToken newTokenId now rd hverify]
  have hvold : verifyRefreshToken
      ({ db with refresh_tokens :=
        db.refresh_tokens.map (fun r =>
          if r.id == rd.id then
            { r with revoked_at := some now, revoked_by_ip := some ip,
                     replaced_by_token := some newTokenId }
          else r) ++
        [{ id := newTokenId, token := newToken, token_hash := hashToken newToken,
           user_id := userId, expires_at := getRefreshTokenExpiry now 30,
           created_at := now, created_by_ip := ip, revoked_at := none,
           revoked_by_ip := none, replaced_by_token := none }] }) t now2 = none := by
    unfold verifyRefreshToken
    rw [List.find?_append,
        find?_map_invariant _ _ (fun r => by by_cases hc : (r.id == rd.id) = true <;> simp [hc]) db.refresh_tokens,
        hfind]
    simp
  refine ⟨rfl, hvold, ?_, ?_⟩
  · unfold verifyRefreshToken
    have hnone : db.refresh_tokens.find? (fun r => r.token_hash == hashToken newToken) = none := by
      rw [List.find?_eq_none]
      intro x hx
      simp [hfresh x hx]
    rw [List.find?_append,
        find?_map_invariant _ _ (fun r => by by_cases hc : (r.id == rd.id) = true <;> simp [hc]) db.refresh_tokens,
        hnone]
    simp [getRefreshTokenExpiry]
  · unfold refreshAccessToken
    have hne2 : (t == "") = false := beq_eq_false_iff_ne.mpr hne
    rw [hne2, hvold]
    rfl

/-- Fixture: the record stored for the plaintext tok1 at instant 0. -/
def wStoredRefresh : RefreshTokenRecord :=
  { id := "rt1", token := "tok1", token_hash := hashToken "tok1", user_id := "u1",
    expires_at := getRefreshTokenExpiry 0 30, created_at := 0, created_by_ip := "ip",
    revoked_at := none, revoked_by_ip := none, replaced_by_token := none }

/-- Fixture database where u1 holds the live token tok1. -/
def wSeededDB : DB :=
  { users := [wUser], organizations := [], refresh_tokens := [wStoredRefresh],
    password_reset_tokens := [] }

/-- Witness for C2 on the seeded fixture: rotating tok1 to tok2. -/
theorem C2_rotation_replay_protection_witness :
    (rotateRefreshToken wSeededDB "tok1" "u1" "ip2" "tok2" "rt2" 5).snd = Except.ok "tok2" ∧
    verifyRefreshToken (rotateRefreshToken wSeededDB "tok1" "u1" "ip2" "tok2" "rt2" 5).fst "tok1" 6 = none ∧
    (verifyRefreshToken (rotateRefreshToken wSeededDB "tok1" "u1" "ip2" "tok2" "rt2" 5).fst "tok2" 5).isSome = true ∧
    refreshAccessToken (rotateRefreshToken wSeededDB "tok1" "u1" "ip2" "tok2" "rt2" 5).fst "tok1" "ip3" "tok3" "rt3" 6 =
      ((rotateRefreshToken wSeededDB "tok1" "u1" "ip2" "tok2" "rt2" 5).fst,
       Except.error (ServiceError.api (ApiError.unauthorized "Invalid or expired refresh token"))) :=
  C2_rotation_replay_protection wSeededDB "tok1" "u1" "ip2" "tok2" "rt2" "ip3" "tok3" "rt3"
    5 6 wStoredRefresh (by decide) (by decide) (by decide)

/-- C4: a password-reset token is consumed at most once: the first call
succeeds and, in one state transition, rewrites the password hash of the
owning user and stamps used_at on the reset record; a second call with
the same token fails with the 400 error Reset token already used and
leaves the state unchanged. -/
theorem C4_reset_token_single_use
    (db : DB) (r newPassword ip newPassword2 ip2 : String) (now now2 : Nat)
    (rd : PasswordResetRecord)
    (hfind : db.password_reset_tokens.find? (fun x => x.token_hash == hashToken r) = some rd)
    (hused : rd.used_at = none) (hexp : ¬ rd.expires_at < now) :
    (resetPassword db r newPassword ip now).snd =
      Except.ok { message := "Password reset successful" } ∧
    (∀ u ∈ (resetPassword db r newPassword ip now).fst.users,
        u.id = rd.user_id → u.password_hash = hashPassword newPassword) ∧
    (∀ x ∈ (resetPassword db r newPassword ip now).fst.password_reset_tokens,
        x.id = rd.id → x.used_at = some now) ∧
    resetPassword (resetPassword db r newPassword ip now).fst r newPassword2 ip2 now2 =
      ((resetPassword db r newPassword ip now).fst,
       Except.error (ServiceError.api (ApiError.badRequest "Reset token already used"))) := by
  have hrun : resetPassword db r newPassword ip now =
      ({ db with
          users := db.users.map (fun u =>
            if u.id == rd.user_id then { u with password_hash := hashPassword newPassword } else u),
          password_reset_tokens := db.password_reset_tokens.map (fun x =>
            if x.id == rd.id then { x with used_at := some now } else x),
          refresh_tokens := db.refresh_tokens.map (fun x =>
            if x.user_id == rd.user_id && x.revoked_at.isNone then
              { x with revoked_at := some now }
            else x) },
       Except.ok { message := "Password reset successful" }) := by
    unfold resetPassword revokeAllUserTokens
    rw [hfind]
    simp [hused, hexp]
  rw [hrun]
  refine ⟨rfl, ?_, ?_, ?_⟩
  · intro u hu hid
    simp only [List.mem_map] at hu
    obtain ⟨x, hx, hgx⟩ := hu
    subst hgx
    by_cases hc : (x.id == rd.user_id) = true
    · simp [hc]
    · simp only [if_neg hc] at hid ⊢
      exact absurd (by simp [hid]) hc
  · intro x hx hid
    simp only [List.mem_map] at hx
    obtain ⟨y, hy, hgy⟩ := hx
    subst hgy
    by_cases hc : (y.id == rd.id) = true
    · simp [hc]
    · simp only [if_neg hc] at hid ⊢
      exact absurd (by simp [hid]) hc
  · unfold resetPassword
    rw [find?_map_invariant _ _
          (fun x => by by_cases hc : (x.id == rd.id) = true <;> simp [hc])
          db.password_reset_tokens,
        hfind]
    simp

/-- Witness for C4 on the boundary fixture store at instant 50. -/
theorem C4_reset_token_single_use_witness :
    (resetPassword wBoundaryDB "reset1" "NewPass123" "ip" 50).snd =
      Except.ok { message := "Password reset successful" } ∧
    (∀ u ∈ (resetPassword wBoundaryDB "reset1" "NewPass123" "ip" 50).fst.users,
        u.id = wBoundaryReset.user_id → u.password_hash = hashPassword "NewPass123") ∧
    (∀ x ∈ (resetPassword wBoundaryDB "reset1" "NewPass123" "ip" 50).fst.password_reset_tokens,
        x.id = wBoundaryReset.id → x.used_at = some 50) ∧
    resetPassword (resetPassword wBoundaryDB "reset1" "NewPass123" "ip" 50).fst
        "reset1" "Xyz12345" "ip2" 60 =
      ((resetPassword wBoundaryDB "reset1" "NewPass123" "ip" 50).fst,
       Except.error (ServiceError.api (ApiError.badRequest "Reset token already used"))) :=
  C4_reset_token_single_use wBoundaryDB "reset1" "NewPass123" "ip" "Xyz12345" "ip2"
    50 60 wBoundaryReset (by decide) (by decide) (by decide)

/-- C5: revokeAllUserTokens marks every record of the user revoked, and
any refresh token belonging to that user subsequently presented to the
refresh operation fails with the UnauthorizedError Invalid or expired
refresh token, leaving the state unchanged. -/
theorem C5_revoke_all_blocks_refresh
    (db : DB) (userId t ip newToken newTokenId : String) (now now2 : Nat)
    (howner : ∀ r ∈ db.refresh_tokens, r.token_hash = hashToken t → r.user_id = userId)
    (hne : t ≠ "") :
    (∀ r ∈ (revokeAllUserTokens db userId now).fst.refresh_tokens,
        r.user_id = userId → r.revoked_at.isSome = true) ∧
    refreshAccessToken (revokeAllUserTokens db userId now).fst t ip newToken newTokenId now2 =
      ((revokeAllUserTokens db userId now).fst,
       Except.error (ServiceError.api (ApiError.unauthorized "Invalid or expired refresh token"))) := by
  have hv : verifyRefreshToken (revokeAllUserTokens db userId now).fst t now2 = none := by
    unfold verifyRefreshToken revokeAllUserTokens
    rw [find?_map_invariant _ _
          (fun r => by by_cases hc : (r.user_id == userId && r.revoked_at.isNone) = true <;> simp [hc])
          db.refresh_tokens]
    cases hf : db.refresh_tokens.find? (fun r => r.token_hash == hashToken t) with
    | none => rfl
    | some rd =>
      have hmem := List.mem_of_find?_eq_some hf
      have hp := List.find?_some hf
      have huid : rd.user_id = userId := howner rd hmem (by simpa using hp)
      cases hre : rd.revoked_at with
      | none => simp [huid, hre]
      | some v => simp [huid, hre]
  constructor
  · intro r hr hid
    simp only [revokeAllUserTokens, List.mem_map] at hr
    obtain ⟨x, hx, hgx⟩ := hr
    subst hgx
    by_cases hc : (x.user_id == userId && x.revoked_at.isNone) = true
    · simp [hc]
    · simp only [if_neg hc] at hid ⊢
      cases hrx : x.revoked_at with
      | none => exact absurd (by simp [hid, hrx]) hc
      | some v => simp [hrx]
  · unfold refreshAccessToken
    have hne2 : (t == "") = false := beq_eq_false_iff_ne.mpr hne
    rw [hne2, hv]
    rfl

/-- Witness for C5 on the seeded fixture: revoking all of u1 and then
presenting tok1. -/
theorem C5_revoke_all_blocks_refresh_witness :
    (∀ r ∈ (revokeAllUserTokens wSeededDB "u1" 5).fst.refresh_tokens,
        r.user_id = "u1" → r.revoked_at.isSome = true) ∧
    refreshAccessToken (revokeAllUserTokens wSeededDB "u1" 5).fst "tok1" "ip" "tok9" "rt9" 6 =
      ((revokeAllUserTokens wSeededDB "u1" 5).fst,
       Except.error (ServiceError.api (ApiError.unauthorized "Invalid or expired refresh token"))) :=
  C5_revoke_all_blocks_refresh wSeededDB "u1" "tok1" "ip" "tok9" "rt9" 5 6
    (by decide) (by decide)

/-- C8: for an unregistered email, signup succeeds with the lowercased
canonical email, and an immediately following login with the same
credentials succeeds and returns a user whose email equals the signup
email in lowercased form. -/
theorem C8_signup_then_login
    (db : DB) (email password fullName ip userId orgId rt1 tid1 ip2 rt2 tid2 : String)
    (now1 now2 : Nat)
    (hnew : db.users.find? (fun u => u.email == toLowerCase email) = none) :
    (signup db email password fullName ip userId orgId rt1 tid1 now1).snd.snd =
      Except.ok { user := { id := userId, email := toLowerCase email,
                            fullName := fullName, role := "user" },
                  accessToken := generateAccessToken userId (toLowerCase email) "user",
                  refreshToken := rt1 } ∧
    (login (signup db email password fullName ip userId orgId rt1 tid1 now1).fst
        email password ip2 rt2 tid2 now2).snd =
      Except.ok { user := { id := userId, email := toLowerCase email,
                            fullName := fullName, role := "user" },
                  accessToken := generateAccessToken userId (toLowerCase email) "user",
                  refreshToken := rt2 } := by
  have hsign : signup db email password fullName ip userId orgId rt1 tid1 now1 =
      ({ db with
          users := db.users ++
            [{ id := userId, email := toLowerCase email,
               password_hash := hashPassword password, full_name := fullName,
               role := "user", is_active := true, last_login_at := none }],
          organizations := db.organizations ++
            [{ id := orgId, name := fullName ++ "\x27s Organization",
               slug := orgSlug fullName now1, owner_id := userId }],
          refresh_tokens := db.refresh_tokens ++
            [{ id := tid1, token := rt1, token_hash := hashToken rt1,
               user_id := userId, expires_at := getRefreshTokenExpiry now1 30,
               created_at := now1, created_by_ip := ip, revoked_at := none,
               revoked_by_ip := none, replaced_by_token := none }] },
       [EmailEvent.welcome (toLowerCase email) fullName],
       Except.ok
         { user := { id := userId, email := toLowerCase email,
                     fullName := fullName, role := "user" },
           accessToken := generateAccessToken userId (toLowerCase email) "user",
           refreshToken := rt1 }) := by
    unfold signup storeRefreshToken
    rw [hnew]
    rfl
  rw [hsign]
  refine ⟨rfl, ?_⟩
  have hfound : (db.users ++
      [({ id := userId, email := toLowerCase email,
          password_hash := hashPassword password, full_name := fullName,
          role := "user", is_active := true, last_login_at := none } : User)]).find?
        (fun u => u.email == toLowerCase email) =
      some { id := userId, email := toLowerCase email,
             password_hash := hashPassword password, full_name := fullName,
             role := "user", is_active := true, last_login_at := none } := by
    rw [List.find?_append, hnew]
    simp
  simp [login, hfound, comparePassword]

/-- Witness for C8: signup of A@X.com on the empty store, then login. -/
theorem C8_signup_then_login_witness :
    (signup emptyDB "A@X.com" "Abcdefg1" "A B" "ip" "u1" "o1" "tok1" "rt1" 0).snd.snd =
      Except.ok { user := { id := "u1", email := toLowerCase "A@X.com",
                            fullName := "A B", role := "user" },
                  accessToken := generateAccessToken "u1" (toLowerCase "A@X.com") "user",
                  refreshToken := "tok1" } ∧
    (login (signup emptyDB "A@X.com" "Abcdefg1" "A B" "ip" "u1" "o1" "tok1" "rt1" 0).fst
        "A@X.com" "Abcdefg1" "ip2" "tok2" "rt2" 9).snd =
      Except.ok { user := { id := "u1", email := toLowerCase "A@X.com",
                            fullName := "A B", role := "user" },
                  accessToken := generateAccessToken "u1" (toLowerCase "A@X.com") "user",
                  refreshToken := "tok2" } :=
  C8_signup_then_login emptyDB "A@X.com" "Abcdefg1" "A B" "ip" "u1" "o1" "tok1" "rt1"
    "ip2" "tok2" "rt2" 0 9 (by decide)

end MicroSurvey
